import Mathlib

/-!
# OpenYurt `pkg/yurthub/server/server.go`

A shallow embedding of the yurthub HTTP server shell: the route registration
done by `registerHandler`, the TLS probe `isServeTLS`, the bootstrap `Run`
and the `healthz` handler.

The Go file calls into other packages (`gorilla/mux`, `net/http`, `klog`,
`util`, `profile`, `fmt`).  The parts of them that the server relies on are
embedded next to it, under the Go name of each function.  Every call that
`server.go` makes to another package is recorded, in order, in the `trace` of
a `World`; the answers of the outside world (file probes, serve calls, the
entries of the profile package) are fields of the `World`.
-/

namespace strings

/-- Go `strings.ToUpper`, on the ASCII letters (the method names used here are ASCII). -/
def ToUpper (s : String) : String := ⟨s.data.map Char.toUpper⟩

/-- Go `strings.HasPrefix`. -/
def HasPrefix (s pre : String) : Bool := pre.data.isPrefixOf s.data

end strings

namespace http

/-- The part of `http.Request` that routing and the handlers can look at. -/
structure Request where
  Method : String
  Path : String
  Host : String
  Header : List (String × String)
  Body : String

/-- Go `http.StatusOK`. -/
def StatusOK : Nat := 200

/-- State of an `http.ResponseWriter`: whether the header went out, the status
code sent with it, and the body bytes written so far. -/
structure ResponseWriter where
  wroteHeader : Bool
  status : Nat
  body : String
deriving DecidableEq, Repr

/-- A response writer nothing has been written to yet. -/
def ResponseWriter.fresh : ResponseWriter := { wroteHeader := false, status := 0, body := "" }

/-- `ResponseWriter.WriteHeader`: the first call fixes the status code, later
calls are ignored. -/
def ResponseWriter.WriteHeader (w : ResponseWriter) (code : Nat) : ResponseWriter :=
  if w.wroteHeader then w else { w with wroteHeader := true, status := code }

/-- `ResponseWriter.Write`: sends the header with status 200 if none was sent,
then appends the bytes to the body. -/
def ResponseWriter.Write (w : ResponseWriter) (b : String) : ResponseWriter :=
  let w1 := if w.wroteHeader then w else w.WriteHeader StatusOK
  { w1 with body := w1.body ++ b }

end http

/-! ## Path cleaning (Go `path.Clean`) -/

namespace path

/-- The elements of a path: the pieces between the `/` bytes. -/
def elements : List Char → List (List Char)
  | [] => [[]]
  | c :: cs =>
    if c = '/' then [] :: elements cs
    else
      match elements cs with
      | [] => [[c]]
      | e :: es => (c :: e) :: es

/-- The element loop of Go `path.Clean`.  `kept` holds the elements written so
far, last one first; `dotdot` counts the leading `..` elements of a path that
is not rooted, which no later `..` may remove.  Empty elements and `.` are
dropped; `..` removes the last kept element when there is one to remove, is
dropped at the root of a rooted path, and is kept otherwise. -/
def cleanLoop (rooted : Bool) : List (List Char) → List (List Char) → Nat → List (List Char)
  | [], kept, _ => kept.reverse
  | e :: rest, kept, dotdot =>
    if e = [] then cleanLoop rooted rest kept dotdot
    else if e = ['.'] then cleanLoop rooted rest kept dotdot
    else if e = ['.', '.'] then
      if kept.length > dotdot then cleanLoop rooted rest kept.tail dotdot
      else if rooted then cleanLoop rooted rest kept dotdot
      else cleanLoop rooted rest (e :: kept) (dotdot + 1)
    else cleanLoop rooted rest (e :: kept) dotdot

/-- Writes the elements with one `/` between them. -/
def join : List (List Char) → List Char
  | [] => []
  | [e] => e
  | e :: es => e ++ '/' :: join es

/-- Go `path.Clean`, on the bytes of the path: the shortest path name equivalent
to the given one by purely lexical processing.  A rooted path stays rooted; an
empty result becomes `.`. -/
def CleanChars (p : List Char) : List Char :=
  if p.head? = some '/' then '/' :: join (cleanLoop true (elements p) [] 0)
  else
    match join (cleanLoop false (elements p) [] 0) with
    | [] => ['.']
    | out => out

/-- Go `path.Clean`. -/
def Clean (p : String) : String := ⟨CleanChars p.data⟩

end path

/-! ## The router

`server.go` imports `github.com/gorilla/mux`; the package itself is not part
of the file.  Routes are kept in registration order, a route is a list of
matchers with a handler, and dispatch takes the first route all of whose
matchers accept the request.  `http.Server` enters the router through
`Router.ServeHTTP`, which first brings the request path to canonical form. -/

namespace mux

/-- Errors a match can report (`mux.ErrMethodMismatch`, `mux.ErrNotFound`). -/
inductive MatchError where
  | ErrMethodMismatch
  | ErrNotFound
deriving DecidableEq, Repr

/-- The matchers a route can carry.  `routeRegexp` is a path template without
variables, anchored at both ends (`Path`) or only at the start
(`PathPrefix`); `methodMatcher` is the list built by `Methods`; `MatcherFunc`
is any other test on the request. -/
inductive matcher where
  | routeRegexp (template : String) (matchPrefix : Bool)
  | methodMatcher (methods : List String)
  | MatcherFunc (f : http.Request → Bool)

/-- Whether the matcher is a `methodMatcher` (the type test done in `Route.Match`). -/
def matcher.isMethodMatcher : matcher → Bool
  | .methodMatcher _ => true
  | _ => false

/-- `matchInArray`: the value occurs in the array. -/
def matchInArray (arr : List String) (value : String) : Bool :=
  match arr with
  | [] => false
  | v :: rest => if v == value then true else matchInArray rest value

/-- Modelled from the spec: the `Match` method of the matchers of the imported
router package.  A path entry matches the whole request path, a path-prefix
entry the start of it, a method entry the request method against its allowed
set. -/
def matcher.Match (m : matcher) (req : http.Request) : Bool :=
  match m with
  | .routeRegexp template true => strings.HasPrefix req.Path template
  | .routeRegexp template false => req.Path == template
  | .methodMatcher methods => matchInArray methods req.Method
  | .MatcherFunc f => f req

/-- A registered route: its handler (nil until one is set) and its matchers. -/
structure Route (H : Type) where
  handler : Option H
  matchers : List matcher

/-- Result of a match: matched route, handler to call, and the error. -/
structure RouteMatch (H : Type) where
  Route : Option (mux.Route H)
  Handler : Option H
  MatchErr : Option MatchError

/-- The zero value `var match RouteMatch`. -/
def RouteMatch.zero {H : Type} : RouteMatch H :=
  { Route := none, Handler := none, MatchErr := none }

/-- The router: its routes in registration order and the two optional
fallback handlers. -/
structure Router (H : Type) where
  NotFoundHandler : Option H
  MethodNotAllowedHandler : Option H
  routes : List (Route H)

/-- `mux.NewRouter()`: no routes, no fallback handlers. -/
def NewRouter {H : Type} : Router H :=
  { NotFoundHandler := none, MethodNotAllowedHandler := none, routes := [] }

/-- Applies `f` to the element at position `i` (an update through a `*Route`). -/
def modifyAt {α : Type} (f : α → α) : Nat → List α → List α
  | _, [] => []
  | 0, a :: l => f a :: l
  | n + 1, a :: l => a :: modifyAt f n l

/-- `Router.NewRoute`: appends an empty route and returns the reference to it
(its position in `routes`). -/
def Router.NewRoute {H : Type} (r : Router H) : Router H × Nat :=
  ({ r with routes := r.routes ++ [{ handler := none, matchers := [] }] }, r.routes.length)

/-- `Route.addMatcher` through the reference `i`. -/
def Router.addMatcher {H : Type} (r : Router H) (i : Nat) (m : matcher) : Router H :=
  { r with routes := modifyAt (fun rt => { rt with matchers := rt.matchers ++ [m] }) i r.routes }

/-- `Route.Path(tpl)` through the reference `i`. -/
def Router.Path {H : Type} (r : Router H) (i : Nat) (tpl : String) : Router H :=
  r.addMatcher i (.routeRegexp tpl false)

/-- `Route.PathPrefix(tpl)` through the reference `i`. -/
def Router.RoutePathPrefix {H : Type} (r : Router H) (i : Nat) (tpl : String) : Router H :=
  r.addMatcher i (.routeRegexp tpl true)

/-- `Route.Methods(methods...)` through the reference `i`: upper-cases the
names and adds a `methodMatcher`. -/
def Router.Methods {H : Type} (r : Router H) (i : Nat) (methods : List String) : Router H :=
  r.addMatcher i (.methodMatcher (methods.map strings.ToUpper))

/-- `Route.Handler(h)` / `Route.HandlerFunc(f)` through the reference `i`. -/
def Router.Handler {H : Type} (r : Router H) (i : Nat) (h : H) : Router H :=
  { r with routes := modifyAt (fun rt => { rt with handler := some h }) i r.routes }

/-- `Router.HandleFunc(path, f)`: `r.NewRoute().Path(path).HandlerFunc(f)`. -/
def Router.HandleFunc {H : Type} (r : Router H) (path : String) (f : H) : Router H × Nat :=
  let (r1, i) := r.NewRoute
  ((r1.Path i path).Handler i f, i)

/-- `Router.PathPrefix(tpl)`: `r.NewRoute().PathPrefix(tpl)`. -/
def Router.PathPrefix {H : Type} (r : Router H) (tpl : String) : Router H × Nat :=
  let (r1, i) := r.NewRoute
  (r1.RoutePathPrefix i tpl, i)

/-- Modelled from the spec: the matcher loop of `Route.Match` of the imported
router package.  `matchErr` is the local variable of the Go function.  The
result is `none` when a matcher other than a method matcher fails (the Go
`return false` inside the loop), together with the updated match; otherwise
it is the final value of `matchErr`. -/
def Route.matchLoop {H : Type} (req : http.Request) :
    List matcher → RouteMatch H → Option MatchError → Option (Option MatchError) × RouteMatch H
  | [], m, matchErr => (some matchErr, m)
  | x :: rest, m, matchErr =>
    if x.Match req then Route.matchLoop req rest m matchErr
    else if x.isMethodMatcher then Route.matchLoop req rest m (some .ErrMethodMismatch)
    else
      (none, if m.MatchErr = some .ErrNotFound then { m with MatchErr := none } else m)

/-- Modelled from the spec: `Route.Match` of the imported router package.  All
matchers (path pattern and allowed methods) must accept the request.  A route
that fails only on its method matcher records `ErrMethodMismatch` in the
match; a later route that matches clears that error and installs its own
handler. -/
def Route.Match {H : Type} (r : Route H) (req : http.Request) (m : RouteMatch H) :
    Bool × RouteMatch H :=
  match Route.matchLoop req r.matchers m none with
  | (none, m1) => (false, m1)
  | (some (some e), m1) => (false, { m1 with MatchErr := some e })
  | (some none, m1) =>
    let m2 := if m1.MatchErr = some .ErrMethodMismatch ∧ r.handler.isSome
      then { m1 with MatchErr := none, Handler := r.handler } else m1
    let m3 := if m2.Route.isNone then { m2 with Route := some r } else m2
    let m4 := if m3.Handler.isNone then { m3 with Handler := r.handler } else m3
    (true, m4)

/-- Modelled from the spec: the route loop of `Router.Match` of the imported
router package.  Pattern matching is first-match-wins: routes are tried in
registration order and the first one that matches is taken.  When none
matches, the fallback handlers decide, and without them the match fails with
`ErrMethodMismatch` (a route matched except for the method) or `ErrNotFound`. -/
def Router.matchRoutes {H : Type} (r : Router H) (req : http.Request) :
    List (Route H) → RouteMatch H → Bool × RouteMatch H
  | [], m =>
    if m.MatchErr = some .ErrMethodMismatch then
      match r.MethodNotAllowedHandler with
      | some h => (true, { m with Handler := some h })
      | none => (false, m)
    else
      match r.NotFoundHandler with
      | some h => (true, { m with Handler := some h, MatchErr := some .ErrNotFound })
      | none => (false, { m with MatchErr := some .ErrNotFound })
  | route :: rest, m =>
    match route.Match req m with
    | (true, m1) => (true, m1)
    | (false, m1) => Router.matchRoutes r req rest m1

/-- Modelled from the spec: `Router.Match` of the imported router package, the
dispatch over the route table. -/
def Router.Match {H : Type} (r : Router H) (req : http.Request) (m : RouteMatch H) :
    Bool × RouteMatch H :=
  Router.matchRoutes r req r.routes m

end mux

namespace mux

/-- The body of `cleanPath` on the bytes of the path. -/
def cleanPathChars (p : List Char) : List Char :=
  if p = [] then ['/']
  else
    let p1 := if p.head? ≠ some '/' then '/' :: p else p
    let np := path.CleanChars p1
    -- path.Clean removes the trailing slash except for root; it is put back
    if p1.getLast? = some '/' ∧ np ≠ ['/'] then np ++ ['/'] else np

/-- Modelled from the spec: `cleanPath` of the imported router package, the
canonical form of a request path: it starts with `/`, has no empty, `.` or
`..` element, and keeps a trailing slash. -/
def cleanPath (p : String) : String := ⟨cleanPathChars p.data⟩

/-- What `Router.ServeHTTP` does with a request: it answers with a redirect to
the cleaned path (status 301) and runs no handler, it runs a handler, or it
answers 405 or 404 itself. -/
inductive Served (H : Type) where
  | redirect (location : String)
  | handler (h : H)
  | methodNotAllowed
  | notFound

/-- Modelled from the spec: `Router.ServeHTTP` of the imported router package, the
entry point `http.Server` calls for every request, for a router with the
default options of `NewRouter` (paths are cleaned, not taken in encoded form).
A request whose path is not in canonical form is redirected to the cleaned
path; otherwise the routes are matched and the handler of the match is run. -/
def Router.ServeHTTP {H : Type} (r : Router H) (req : http.Request) : Served H :=
  if cleanPath req.Path ≠ req.Path then .redirect (cleanPath req.Path)
  else
    let (ok, m) := r.Match req RouteMatch.zero
    let handler := if ok then m.Handler else none
    match handler with
    | some h => .handler h
    | none => if m.MatchErr = some .ErrMethodMismatch then .methodNotAllowed else .notFound

end mux

namespace http

/-- The fields of `http.Server` that `Run` sets: the listen address and the
handler (the router). -/
structure Server (H : Type) where
  Addr : String
  Handler : mux.Router H

end http

namespace config

/-- The fields of `config.YurtHubConfiguration` the server reads. -/
structure YurtHubConfiguration where
  YurtHubHost : String
  YurtHubPort : Int
  ServerTLSCert : String
  ServerTLSKey : String

end config

namespace server

/-- The handlers that end up in the route table: the two methods of the server
(`s.updateToken`, `s.healthz`), the handlers registered by the profile
package, and the injected proxy handler. -/
inductive Handler (P Q : Type) where
  | updateToken
  | healthz
  | profile (h : Q)
  | proxyHandler (h : P)
deriving DecidableEq, Repr

/-- An entry the profile package registers: its matchers and its handler. -/
structure ProfileEntry (Q : Type) where
  matchers : List mux.matcher
  handler : Q

/-- What a serve call (`ListenAndServe`, `ListenAndServeTLS`) does: it keeps
serving and never comes back, or it returns an error value (`none` for nil). -/
inductive ServeResult where
  | blocks
  | returns (err : Option String)
deriving DecidableEq, Repr

/-- The calls `server.go` makes to other packages, as recorded in the trace. -/
inductive Call (H : Type) where
  | HandleFunc (path : String)
  | Methods (methods : List String)
  | Install
  | PathPrefix (tpl : String)
  | Handler
  | FileExists (filename : String)
  | Infof (msg : String)
  | ListenAndServe (srv : http.Server H)
  | ListenAndServeTLS (srv : http.Server H) (certFile keyFile : String)

/-- The surroundings of the server: the answer of `util.FileExists` (package
`pkg/yurthub/util`, not part of `server.go`) for each path, a Go
`(bool, error)` pair with the error as its message; the entries the profile
package installs; the behaviour of the two serve calls; and the trace of
calls made so far. -/
structure World (P Q : Type) where
  FileExists : String → Bool × Option String
  profileEntries : List (ProfileEntry Q)
  ListenAndServe : http.Server (Handler P Q) → ServeResult
  ListenAndServeTLS : http.Server (Handler P Q) → String → String → ServeResult
  trace : List (Call (Handler P Q))

/-- Records a call at the end of the trace. -/
def World.call {P Q : Type} (w : World P Q) (c : Call (Handler P Q)) : World P Q :=
  { w with trace := w.trace ++ [c] }

/-- The route a profile entry becomes. -/
def ProfileEntry.toRoute {P Q : Type} (e : ProfileEntry Q) : mux.Route (Handler P Q) :=
  { handler := some (.profile e.handler), matchers := e.matchers }

end server

namespace profile

/-- Modelled from the spec: `profile.Install` (package `pkg/yurthub/profile`, not
part of `server.go`) registers zero or more diagnostic entries of its own
against the route table it is given; it adds them after the routes already
there and changes nothing else. -/
def Install {P Q : Type} (c : mux.Router (server.Handler P Q))
    (entries : List (server.ProfileEntry Q)) : mux.Router (server.Handler P Q) :=
  { c with routes := c.routes ++ entries.map server.ProfileEntry.toRoute }

end profile

namespace fmt

/-- Go `fmt.Sprintf("%s:%d", host, port)`. -/
def SprintfHostPort (host : String) (port : Int) : String :=
  host ++ ":" ++ toString port

/-- Go `fmt.Fprintf(w, format)` for a format without verbs: writes it as is. -/
def Fprintf (w : http.ResponseWriter) (format : String) : http.ResponseWriter :=
  w.Write format

end fmt

namespace server

/-- The struct `yurtHubServer`. -/
structure yurtHubServer (C P Q : Type) where
  mux : mux.Router (Handler P Q)
  certificateMgr : C
  proxyHandler : P
  cfg : config.YurtHubConfiguration

/-- `NewYurtHubServer`. -/
def NewYurtHubServer {C P Q : Type} (cfg : config.YurtHubConfiguration)
    (certificateMgr : C) (proxyHandler : P) : yurtHubServer C P Q :=
  { mux := mux.NewRouter, certificateMgr := certificateMgr, proxyHandler := proxyHandler,
    cfg := cfg }

/-- `yurtHubServer.registerHandler`. -/
def yurtHubServer.registerHandler {C P Q : Type} (s : yurtHubServer C P Q) (w : World P Q) :
    yurtHubServer C P Q × World P Q :=
  -- register handlers for update join token
  let (m, r) := s.mux.HandleFunc "/v1/token" Handler.updateToken
  let w := w.call (.HandleFunc "/v1/token")
  let m := m.Methods r ["POST", "PUT"]
  let w := w.call (.Methods ["POST", "PUT"])
  -- register handler for health check
  let (m, r) := m.HandleFunc "/v1/healthz" Handler.healthz
  let w := w.call (.HandleFunc "/v1/healthz")
  let m := m.Methods r ["GET"]
  let w := w.call (.Methods ["GET"])
  -- register handler for profile
  let m := profile.Install m w.profileEntries
  let w := w.call .Install
  -- "/" route is put at the end: handlers for proxy to kube-apiserver
  let (m, r) := m.PathPrefix "/"
  let w := w.call (.PathPrefix "/")
  let m := m.Handler r (Handler.proxyHandler s.proxyHandler)
  let w := w.call .Handler
  ({ s with mux := m }, w)

/-- `yurtHubServer.isServeTLS`. -/
def yurtHubServer.isServeTLS {C P Q : Type} (s : yurtHubServer C P Q) (w : World P Q) :
    Bool × World P Q :=
  let (existsCert, err) := w.FileExists s.cfg.ServerTLSCert
  let w := w.call (.FileExists s.cfg.ServerTLSCert)
  match err with
  | some e => (false, w.call (.Infof ("fail to init tls cert file, " ++ e)))
  | none =>
    let (existsKey, err) := w.FileExists s.cfg.ServerTLSKey
    let w := w.call (.FileExists s.cfg.ServerTLSKey)
    match err with
    | some e => (false, w.call (.Infof ("fail to init tls key file, " ++ e)))
    | none =>
      if existsCert && existsKey then
        (true, w.call (.Infof ("use " ++ s.cfg.ServerTLSCert ++ " cert file and "
          ++ s.cfg.ServerTLSKey ++ " key file to run server.")))
      else
        (false, w)

/-- How a call of `Run` ends: it returns, it panics with an error, or it never
comes back because the serve call keeps serving. -/
inductive RunResult where
  | returned
  | panicked (err : String)
  | serving
deriving DecidableEq, Repr

/-- `yurtHubServer.Run`. -/
def yurtHubServer.Run {C P Q : Type} (s : yurtHubServer C P Q) (w : World P Q) :
    RunResult × yurtHubServer C P Q × World P Q :=
  let (s, w) := s.registerHandler w
  let srv : http.Server (Handler P Q) :=
    { Addr := fmt.SprintfHostPort s.cfg.YurtHubHost s.cfg.YurtHubPort, Handler := s.mux }
  let (tls, w) := s.isServeTLS w
  let (err, w) :=
    if tls then
      (w.ListenAndServeTLS srv s.cfg.ServerTLSCert s.cfg.ServerTLSKey,
        w.call (.ListenAndServeTLS srv s.cfg.ServerTLSCert s.cfg.ServerTLSKey))
    else
      (w.ListenAndServe srv, w.call (.ListenAndServe srv))
  match err with
  | .blocks => (.serving, s, w)
  | .returns (some e) => (.panicked e, s, w)
  | .returns none => (.returned, s, w)

/-- `yurtHubServer.healthz`. -/
def yurtHubServer.healthz {C P Q : Type} (_s : yurtHubServer C P Q)
    (w : http.ResponseWriter) (_r : http.Request) : http.ResponseWriter :=
  fmt.Fprintf (w.WriteHeader http.StatusOK) "OK"

end server

/-! ## Names used in the statements

The expected entries of the route table, first-match-wins as a list search,
the parts of the trace of `Run`, and sample values. -/

namespace server

/-- The `/v1/token` entry: exact path, methods POST and PUT, the token-update handler. -/
def tokenEntry {P Q : Type} : mux.Route (Handler P Q) :=
  { handler := some .updateToken,
    matchers := [.routeRegexp "/v1/token" false, .methodMatcher ["POST", "PUT"]] }

/-- The `/v1/healthz` entry: exact path, method GET, the health responder. -/
def healthzEntry {P Q : Type} : mux.Route (Handler P Q) :=
  { handler := some .healthz,
    matchers := [.routeRegexp "/v1/healthz" false, .methodMatcher ["GET"]] }

/-- The catch-all entry: path prefix `/`, no method restriction, the proxy handler. -/
def catchAllEntry {P Q : Type} (p : P) : mux.Route (Handler P Q) :=
  { handler := some (.proxyHandler p), matchers := [.routeRegexp "/" true] }

/-- The route table `registerHandler` is expected to build on an empty router. -/
def expectedRoutes {P Q : Type} (p : P) (entries : List (ProfileEntry Q)) :
    List (mux.Route (Handler P Q)) :=
  tokenEntry :: healthzEntry :: (entries.map ProfileEntry.toRoute ++ [catchAllEntry p])

end server

namespace mux

/-- The route accepts the request: every matcher of the route matches it. -/
def Route.accepts {H : Type} (r : Route H) (req : http.Request) : Bool :=
  r.matchers.all (fun x => x.Match req)

/-- First-match-wins over an ordered list of routes. -/
def firstMatch {H : Type} (routes : List (Route H)) (req : http.Request) : Option (Route H) :=
  routes.find? (fun r => r.accepts req)

/-- A match in which no route has been found yet: no route, no handler, and no
`ErrNotFound` recorded. -/
def RouteMatch.pending {H : Type} (m : RouteMatch H) : Prop :=
  m.Route = none ∧ m.Handler = none ∧ m.MatchErr ≠ some .ErrNotFound

end mux

namespace server

/-- The router of a newly constructed server after `registerHandler` has run. -/
def builtRouter {C P Q : Type} (cfg : config.YurtHubConfiguration) (certificateMgr : C)
    (proxyHandler : P) (w : World P Q) : mux.Router (Handler P Q) :=
  ((NewYurtHubServer cfg certificateMgr proxyHandler).registerHandler w).1.mux

/-- Whether a recorded call is one of the two serve calls. -/
def Call.isServe {H : Type} : Call H → Bool
  | .ListenAndServe _ => true
  | .ListenAndServeTLS _ _ _ => true
  | _ => false

/-- A sample configuration. -/
def sampleCfg : config.YurtHubConfiguration :=
  { YurtHubHost := "127.0.0.1", YurtHubPort := 10261,
    ServerTLSCert := "/var/lib/yurthub/pki/server.crt",
    ServerTLSKey := "/var/lib/yurthub/pki/server.key" }

/-- A sample world: `util.FileExists` answers from the given function, the
profile package installs the given entries, serve calls keep serving. -/
def sampleWorld (fileExists : String → Bool × Option String)
    (entries : List (ProfileEntry String)) : World String String :=
  { FileExists := fileExists, profileEntries := entries,
    ListenAndServe := fun _ => .blocks, ListenAndServeTLS := fun _ _ _ => .blocks, trace := [] }

/-- A sample request with the given method and path. -/
def sampleRequest (method path : String) : http.Request :=
  { Method := method, Path := path, Host := "127.0.0.1:10261", Header := [], Body := "" }

/-- The calls `registerHandler` makes, in order. -/
def registerCalls {H : Type} : List (Call H) :=
  [.HandleFunc "/v1/token", .Methods ["POST", "PUT"], .HandleFunc "/v1/healthz",
   .Methods ["GET"], .Install, .PathPrefix "/", .Handler]

/-- The calls made by one invocation of `isServeTLS`. -/
def probeCalls {C P Q : Type} (s : yurtHubServer C P Q) (w : World P Q) :
    List (Call (Handler P Q)) :=
  (s.isServeTLS { w with trace := [] }).2.trace

/-- The `http.Server` value `Run` builds: the configured address and the router
as `registerHandler` leaves it. -/
def builtServer {C P Q : Type} (s : yurtHubServer C P Q) (w : World P Q) :
    http.Server (Handler P Q) :=
  { Addr := fmt.SprintfHostPort s.cfg.YurtHubHost s.cfg.YurtHubPort,
    Handler := (s.registerHandler w).1.mux }

/-- The serve call that corresponds to the verdict of `isServeTLS`. -/
def chosenServeCall {C P Q : Type} (s : yurtHubServer C P Q) (w : World P Q) :
    Call (Handler P Q) :=
  if (s.isServeTLS w).1 then
    .ListenAndServeTLS (builtServer s w) s.cfg.ServerTLSCert s.cfg.ServerTLSKey
  else .ListenAndServe (builtServer s w)

/-- What the serve call that corresponds to the verdict of `isServeTLS` does. -/
def chosenServeResult {C P Q : Type} (s : yurtHubServer C P Q) (w : World P Q) : ServeResult :=
  if (s.isServeTLS w).1 then
    w.ListenAndServeTLS (builtServer s w) s.cfg.ServerTLSCert s.cfg.ServerTLSKey
  else w.ListenAndServe (builtServer s w)

/-- Whether a recorded call is a file probe. -/
def Call.isFileExists {H : Type} : Call H → Bool
  | .FileExists _ => true
  | _ => false

/-- Whether a recorded call is a log line. -/
def Call.isInfof {H : Type} : Call H → Bool
  | .Infof _ => true
  | _ => false

end server

/-! ## Theorems -/

namespace mux

theorem modifyAt_length_append {α : Type} (f : α → α) (l : List α) (a : α) (t : List α) :
    modifyAt f l.length (l ++ a :: t) = l ++ f a :: t := by
  induction l with
  | nil => rfl
  | cons x xs ih => simp [modifyAt, ih]

theorem HandleFunc_eq {H : Type} (r : Router H) (path : String) (f : H) :
    r.HandleFunc path f =
      ({ r with routes := r.routes ++
          [{ handler := some f, matchers := [.routeRegexp path false] }] }, r.routes.length) := by
  simp [Router.HandleFunc, Router.NewRoute, Router.Path, Router.addMatcher, Router.Handler,
    modifyAt_length_append]

theorem PathPrefix_eq {H : Type} (r : Router H) (tpl : String) :
    r.PathPrefix tpl =
      ({ r with routes := r.routes ++
          [{ handler := none, matchers := [.routeRegexp tpl true] }] }, r.routes.length) := by
  simp [Router.PathPrefix, Router.NewRoute, Router.RoutePathPrefix, Router.addMatcher,
    modifyAt_length_append]

theorem Methods_mk {H : Type} (nf mna : Option H) (l : List (Route H)) (rt : Route H)
    (ms : List String) :
    Router.Methods { NotFoundHandler := nf, MethodNotAllowedHandler := mna, routes := l ++ [rt] }
        l.length ms =
      { NotFoundHandler := nf, MethodNotAllowedHandler := mna,
        routes := l ++ [Route.mk rt.handler
          (rt.matchers ++ [matcher.methodMatcher (ms.map strings.ToUpper)])] } := by
  simp [Router.Methods, Router.addMatcher, modifyAt_length_append]

theorem Handler_mk {H : Type} (nf mna : Option H) (l : List (Route H)) (rt : Route H) (hd : H) :
    Router.Handler { NotFoundHandler := nf, MethodNotAllowedHandler := mna, routes := l ++ [rt] }
        l.length hd =
      { NotFoundHandler := nf, MethodNotAllowedHandler := mna,
        routes := l ++ [Route.mk (some hd) rt.matchers] } := by
  simp [Router.Handler, modifyAt_length_append]

end mux

namespace server

theorem World.call_profileEntries {P Q : Type} (w : World P Q) (c : Call (Handler P Q)) :
    (w.call c).profileEntries = w.profileEntries := rfl

theorem toUpper_post_put : ["POST", "PUT"].map strings.ToUpper = ["POST", "PUT"] := by
  decide

theorem toUpper_get : ["GET"].map strings.ToUpper = ["GET"] := by
  decide

/-- The routes after `registerHandler`, for any routes already in the router. -/
theorem registerHandler_routes {C P Q : Type} (s : yurtHubServer C P Q) (w : World P Q) :
    (s.registerHandler w).1.mux.routes = s.mux.routes ++ expectedRoutes s.proxyHandler w.profileEntries := by
  simp only [yurtHubServer.registerHandler, mux.HandleFunc_eq, mux.PathPrefix_eq,
    mux.Methods_mk, mux.Handler_mk, profile.Install, toUpper_post_put, toUpper_get]
  simp [expectedRoutes, tokenEntry, healthzEntry, catchAllEntry, World.call_profileEntries]

end server

namespace mux

theorem pending_zero {H : Type} : (RouteMatch.zero : RouteMatch H).pending := by
  simp [RouteMatch.pending, RouteMatch.zero]

theorem matchLoop_all {H : Type} (req : http.Request) (ms : List matcher) (m : RouteMatch H)
    (e : Option MatchError) (h : ms.all (fun x => x.Match req) = true) :
    Route.matchLoop req ms m e = (some e, m) := by
  induction ms with
  | nil => rfl
  | cons x xs ih =>
    simp only [List.all_cons, Bool.and_eq_true] at h
    simp [Route.matchLoop, h.1, ih h.2]

theorem matchLoop_not_all {H : Type} (req : http.Request) (ms : List matcher) (m : RouteMatch H)
    (hm : m.pending) (e : Option MatchError) (h : ms.all (fun x => x.Match req) = false) :
    Route.matchLoop req ms m e = (none, m) ∨
      Route.matchLoop req ms m e = (some (some .ErrMethodMismatch), m) := by
  induction ms generalizing e with
  | nil => simp at h
  | cons x xs ih =>
    by_cases hx : x.Match req = true
    · have hxs : xs.all (fun x => x.Match req) = false := by simpa [hx] using h
      simpa [Route.matchLoop, hx] using ih e hxs
    · by_cases hk : x.isMethodMatcher = true
      · by_cases hxs : xs.all (fun x => x.Match req) = true
        · right
          simp [Route.matchLoop, hx, hk, matchLoop_all req xs m _ hxs]
        · simpa [Route.matchLoop, hx, hk] using ih (some .ErrMethodMismatch) (by simpa using hxs)
      · left
        simp [Route.matchLoop, hx, hk, hm.2.2]

theorem Route.Match_accepts {H : Type} (r : Route H) (req : http.Request) (m : RouteMatch H)
    (hm : m.pending) (h : H) (hh : r.handler = some h) (ha : r.accepts req = true) :
    r.Match req m = (true, { Route := some r, Handler := some h, MatchErr := none }) := by
  obtain ⟨mr, mh, me⟩ := m
  obtain ⟨h1, h2, h3⟩ := hm
  simp only at h1 h2 h3
  subst h1 h2
  simp only [Route.Match, matchLoop_all req r.matchers _ none ha, hh]
  cases me with
  | none => simp
  | some e => cases e <;> simp_all

theorem Route.Match_rejects {H : Type} (r : Route H) (req : http.Request) (m : RouteMatch H)
    (hm : m.pending) (ha : r.accepts req = false) :
    ∃ m1 : RouteMatch H, m1.pending ∧ r.Match req m = (false, m1) := by
  rcases matchLoop_not_all req r.matchers m hm none ha with h | h
  · exact ⟨m, hm, by simp [Route.Match, h]⟩
  · refine ⟨{ m with MatchErr := some .ErrMethodMismatch }, ?_, by simp [Route.Match, h]⟩
    simp [RouteMatch.pending, hm.1, hm.2.1]

/-- On a table whose routes all have a handler, the route loop returns the first
route that accepts the request, with its handler and no error. -/
theorem matchRoutes_firstMatch {H : Type} (R : Router H) (req : http.Request)
    (routes : List (Route H)) (hh : ∀ r ∈ routes, r.handler.isSome = true)
    (m : RouteMatch H) (hm : m.pending) (r : Route H) (hf : firstMatch routes req = some r) :
    Router.matchRoutes R req routes m =
      (true, { Route := some r, Handler := r.handler, MatchErr := none }) := by
  induction routes generalizing m with
  | nil => simp [firstMatch] at hf
  | cons x xs ih =>
    by_cases hx : x.accepts req = true
    · have hxr : x = r := by simpa [firstMatch, List.find?, hx] using hf
      subst hxr
      obtain ⟨h, hxh⟩ := Option.isSome_iff_exists.mp (hh x (List.mem_cons_self _ _))
      simp [Router.matchRoutes, Route.Match_accepts x req m hm h hxh hx, hxh]
    · have hx2 : x.accepts req = false := by simpa using hx
      obtain ⟨m1, hm1, he⟩ := Route.Match_rejects x req m hm hx2
      have hf2 : firstMatch xs req = some r := by simpa [firstMatch, List.find?, hx2] using hf
      simp only [Router.matchRoutes, he]
      exact ih (fun r hr => hh r (List.mem_cons_of_mem _ hr)) m1 hm1 hf2

end mux

namespace server

theorem builtRouter_eq {C P Q : Type} (cfg : config.YurtHubConfiguration) (cm : C) (p : P)
    (w : World P Q) :
    builtRouter cfg cm p w =
      { NotFoundHandler := none, MethodNotAllowedHandler := none,
        routes := expectedRoutes p w.profileEntries } := by
  have h := registerHandler_routes (NewYurtHubServer cfg cm p) w
  have h1 : ((NewYurtHubServer cfg cm p).registerHandler w).1.mux.NotFoundHandler = none := rfl
  have h2 : ((NewYurtHubServer cfg cm p).registerHandler w).1.mux.MethodNotAllowedHandler
      = none := rfl
  simp only [NewYurtHubServer, mux.NewRouter, List.nil_append] at h
  unfold builtRouter
  cases hm : ((NewYurtHubServer cfg cm p).registerHandler w).1.mux with
  | mk a b c =>
    rw [hm] at h1 h2
    simp only [NewYurtHubServer, mux.NewRouter] at hm
    rw [hm] at h
    simp only at h h1 h2
    rw [h, h1, h2]

theorem expectedRoutes_handlers {P Q : Type} (p : P) (entries : List (ProfileEntry Q)) :
    ∀ r ∈ (expectedRoutes p entries : List (mux.Route (Handler P Q))),
      r.handler.isSome = true := by
  intro r hr
  simp only [expectedRoutes, List.mem_cons, List.mem_append, List.mem_map, List.mem_singleton,
    List.not_mem_nil, or_false] at hr
  rcases hr with rfl | rfl | ⟨e, _, rfl⟩ | rfl <;> rfl

theorem tokenEntry_accepts {P Q : Type} (req : http.Request) :
    (tokenEntry : mux.Route (Handler P Q)).accepts req = true ↔
      req.Path = "/v1/token" ∧ (req.Method = "POST" ∨ req.Method = "PUT") := by
  simp only [mux.Route.accepts, tokenEntry, mux.matcher.Match, mux.matchInArray, List.all_cons,
    List.all_nil, Bool.and_true, Bool.and_eq_true, beq_iff_eq, Bool.if_true_left,
    Bool.or_false, Bool.or_eq_true, decide_eq_true_eq]
  constructor
  · rintro ⟨h1, h2 | h2⟩
    · exact ⟨h1, Or.inl h2.symm⟩
    · exact ⟨h1, Or.inr h2.symm⟩
  · rintro ⟨h1, h2 | h2⟩
    · exact ⟨h1, Or.inl h2.symm⟩
    · exact ⟨h1, Or.inr h2.symm⟩

theorem healthzEntry_accepts {P Q : Type} (req : http.Request) :
    (healthzEntry : mux.Route (Handler P Q)).accepts req = true ↔
      req.Path = "/v1/healthz" ∧ req.Method = "GET" := by
  simp only [mux.Route.accepts, healthzEntry, mux.matcher.Match, mux.matchInArray, List.all_cons,
    List.all_nil, Bool.and_true, Bool.and_eq_true, beq_iff_eq, Bool.if_true_left,
    Bool.or_false, decide_eq_true_eq]
  constructor
  · rintro ⟨h1, h2⟩
    exact ⟨h1, h2.symm⟩
  · rintro ⟨h1, h2⟩
    exact ⟨h1, h2.symm⟩

theorem catchAllEntry_accepts {P Q : Type} (p : P) (req : http.Request) :
    (catchAllEntry p : mux.Route (Handler P Q)).accepts req = strings.HasPrefix req.Path "/" := by
  simp [mux.Route.accepts, catchAllEntry, mux.matcher.Match]

theorem toRoute_accepts {P Q : Type} (e : ProfileEntry Q) (req : http.Request) :
    (e.toRoute : mux.Route (Handler P Q)).accepts req = e.matchers.all (fun x => x.Match req) :=
  rfl

/-- Dispatch over the built table is first-match-wins over the expected routes. -/
theorem builtRouter_Match {C P Q : Type} (cfg : config.YurtHubConfiguration) (cm : C) (p : P)
    (w : World P Q) (req : http.Request) (r : mux.Route (Handler P Q))
    (hf : mux.firstMatch (expectedRoutes p w.profileEntries) req = some r) :
    (builtRouter cfg cm p w).Match req mux.RouteMatch.zero =
      (true, { Route := some r, Handler := r.handler, MatchErr := none }) := by
  rw [builtRouter_eq]
  exact mux.matchRoutes_firstMatch _ req _ (expectedRoutes_handlers p w.profileEntries) _
    mux.pending_zero r hf

theorem firstMatch_append_none {H : Type} (l1 l2 : List (mux.Route H)) (req : http.Request)
    (h : ∀ r ∈ l1, r.accepts req = false) :
    mux.firstMatch (l1 ++ l2) req = mux.firstMatch l2 req := by
  induction l1 with
  | nil => rfl
  | cons x xs ih =>
    have hx := h x (List.mem_cons_self _ _)
    simp only [mux.firstMatch, List.cons_append, List.find?, hx]
    exact ih (fun r hr => h r (List.mem_cons_of_mem _ hr))

theorem firstMatch_mem {H : Type} (l : List (mux.Route H)) (req : http.Request)
    (r : mux.Route H) (h : mux.firstMatch l req = some r) : r ∈ l := by
  induction l with
  | nil => simp [mux.firstMatch] at h
  | cons x xs ih =>
    by_cases hx : x.accepts req = true
    · simp only [mux.firstMatch, List.find?, hx, Option.some.injEq] at h
      simp [h]
    · have hx2 : x.accepts req = false := by simpa using hx
      simp only [mux.firstMatch, List.find?, hx2] at h
      exact List.mem_cons_of_mem _ (ih h)

theorem firstMatch_append_last {H : Type} (l : List (mux.Route H)) (c : mux.Route H)
    (req : http.Request) (hc : c.accepts req = true) :
    mux.firstMatch (l ++ [c]) req = some ((mux.firstMatch l req).getD c) := by
  induction l with
  | nil => simp [mux.firstMatch, List.find?, hc]
  | cons x xs ih =>
    by_cases hx : x.accepts req = true
    · simp [mux.firstMatch, List.find?, hx]
    · have hx2 : x.accepts req = false := by simpa using hx
      simpa [mux.firstMatch, List.find?, hx2] using ih

theorem hasPrefix_slash_token : strings.HasPrefix "/v1/token" "/" = true := by decide

/-- When the two control entries turn the request down and the catch-all accepts
it, dispatch over the built table takes the first profiling entry that accepts
the request, or the catch-all when none does; the handler is then a profiling
handler or the proxy handler. -/
theorem builtRouter_Match_fallthrough {C P Q : Type} (cfg : config.YurtHubConfiguration)
    (cm : C) (p : P) (w : World P Q) (req : http.Request)
    (e1 : (tokenEntry : mux.Route (Handler P Q)).accepts req = false)
    (e2 : (healthzEntry : mux.Route (Handler P Q)).accepts req = false)
    (e3 : (catchAllEntry p : mux.Route (Handler P Q)).accepts req = true) :
    (builtRouter cfg cm p w).Match req mux.RouteMatch.zero =
      (true,
        { Route := some ((mux.firstMatch (w.profileEntries.map ProfileEntry.toRoute) req).getD
            (catchAllEntry p)),
          Handler := ((mux.firstMatch (w.profileEntries.map ProfileEntry.toRoute) req).getD
            (catchAllEntry p)).handler,
          MatchErr := none }) ∧
    (((builtRouter cfg cm p w).Match req mux.RouteMatch.zero).2.Handler
        = some (Handler.proxyHandler p) ∨
      ∃ q, ((builtRouter cfg cm p w).Match req mux.RouteMatch.zero).2.Handler
        = some (Handler.profile q)) := by
  have hf : mux.firstMatch (expectedRoutes p w.profileEntries) req =
      some ((mux.firstMatch (w.profileEntries.map ProfileEntry.toRoute) req).getD
        (catchAllEntry p)) := by
    rw [← firstMatch_append_last _ _ _ e3]
    simp only [mux.firstMatch, expectedRoutes, List.find?, e1, e2]
  have h := builtRouter_Match cfg cm p w req _ hf
  refine ⟨h, ?_⟩
  rw [h]
  have hmem := firstMatch_mem _ _ _ (by rw [← firstMatch_append_last _ _ _ e3] :
    mux.firstMatch (w.profileEntries.map ProfileEntry.toRoute ++ [catchAllEntry p]) req =
      some ((mux.firstMatch (w.profileEntries.map ProfileEntry.toRoute) req).getD
        (catchAllEntry p)))
  simp only [List.mem_append, List.mem_map, List.mem_singleton] at hmem
  rcases hmem with ⟨e, _, he⟩ | he
  · right
    exact ⟨e.handler, by rw [← he]; rfl⟩
  · left
    rw [he]
    rfl

/-- C1 (counterexample): with no profiling entries installed, `GET /v1/token` is
not rejected by the dispatcher built by `registerHandler`: the match succeeds
without error and selects the catch-all proxy handler. -/
theorem get_token_reaches_proxy :
    ((builtRouter sampleCfg () "proxy" (sampleWorld (fun _ => (false, none)) [])).Match
        (sampleRequest "GET" "/v1/token") mux.RouteMatch.zero).1 = true ∧
    ((builtRouter sampleCfg () "proxy" (sampleWorld (fun _ => (false, none)) [])).Match
        (sampleRequest "GET" "/v1/token") mux.RouteMatch.zero).2.Handler
      = some (Handler.proxyHandler "proxy") ∧
    ((builtRouter sampleCfg () "proxy" (sampleWorld (fun _ => (false, none)) [])).Match
        (sampleRequest "GET" "/v1/token") mux.RouteMatch.zero).2.MatchErr = none := by
  have h := builtRouter_Match sampleCfg () "proxy" (sampleWorld (fun _ => (false, none)) [])
    (sampleRequest "GET" "/v1/token") (catchAllEntry "proxy") (by
      have e1 : (tokenEntry : mux.Route (Handler String String)).accepts
          (sampleRequest "GET" "/v1/token") = false := by
        rw [Bool.eq_false_iff, Ne, tokenEntry_accepts]
        simp [sampleRequest]
      have e2 : (healthzEntry : mux.Route (Handler String String)).accepts
          (sampleRequest "GET" "/v1/token") = false := by
        rw [Bool.eq_false_iff, Ne, healthzEntry_accepts]
        simp [sampleRequest]
      have e3 : (catchAllEntry "proxy" : mux.Route (Handler String String)).accepts
          (sampleRequest "GET" "/v1/token") = true := by
        rw [catchAllEntry_accepts]
        exact hasPrefix_slash_token
      simp [mux.firstMatch, expectedRoutes, sampleWorld, List.find?, e1, e2, e3])
  rw [h]
  exact ⟨rfl, rfl, rfl⟩

/-- C1 (amended): a GET request to `/v1/token` is never handed to the token-update
handler, and it is not rejected either: the `/v1/token` entry turns it down on
the method, and dispatch goes on to the first profiling entry that accepts the
request or, when none does, to the catch-all proxy handler; the match succeeds
with no error. -/
theorem get_token_falls_through {C P Q : Type} (cfg : config.YurtHubConfiguration) (cm : C)
    (p : P) (w : World P Q) (req : http.Request)
    (hm : req.Method = "GET") (hp : req.Path = "/v1/token") :
    (builtRouter cfg cm p w).Match req mux.RouteMatch.zero =
      (true,
        { Route := some ((mux.firstMatch (w.profileEntries.map ProfileEntry.toRoute) req).getD
            (catchAllEntry p)),
          Handler := ((mux.firstMatch (w.profileEntries.map ProfileEntry.toRoute) req).getD
            (catchAllEntry p)).handler,
          MatchErr := none }) ∧
    (((builtRouter cfg cm p w).Match req mux.RouteMatch.zero).2.Handler
        = some (Handler.proxyHandler p) ∨
      ∃ q, ((builtRouter cfg cm p w).Match req mux.RouteMatch.zero).2.Handler
        = some (Handler.profile q)) := by
  have e1 : (tokenEntry : mux.Route (Handler P Q)).accepts req = false := by
    rw [Bool.eq_false_iff, Ne, tokenEntry_accepts]
    simp [hm]
  have e2 : (healthzEntry : mux.Route (Handler P Q)).accepts req = false := by
    rw [Bool.eq_false_iff, Ne, healthzEntry_accepts]
    simp [hp]
  have e3 : (catchAllEntry p : mux.Route (Handler P Q)).accepts req = true := by
    rw [catchAllEntry_accepts, hp]
    exact hasPrefix_slash_token
  exact builtRouter_Match_fallthrough cfg cm p w req e1 e2 e3

/-- C1 (amended), at a concrete GET request for `/v1/token`, with a profiling entry
for the subtree `/debug/pprof/`. -/
theorem get_token_falls_through_witness :
    (sampleRequest "GET" "/v1/token").Method = "GET" ∧
    (sampleRequest "GET" "/v1/token").Path = "/v1/token" ∧
    (((builtRouter sampleCfg () "proxy"
        (sampleWorld (fun _ => (false, none))
          [{ matchers := [mux.matcher.routeRegexp "/debug/pprof/" true],
             handler := "pprof" }])).Match
        (sampleRequest "GET" "/v1/token") mux.RouteMatch.zero).2.Handler
        = some (Handler.proxyHandler "proxy") ∨
      ∃ q, ((builtRouter sampleCfg () "proxy"
        (sampleWorld (fun _ => (false, none))
          [{ matchers := [mux.matcher.routeRegexp "/debug/pprof/" true],
             handler := "pprof" }])).Match
        (sampleRequest "GET" "/v1/token") mux.RouteMatch.zero).2.Handler
        = some (Handler.profile q)) :=
  ⟨rfl, rfl, (get_token_falls_through sampleCfg () "proxy"
    (sampleWorld (fun _ => (false, none))
      [{ matchers := [mux.matcher.routeRegexp "/debug/pprof/" true], handler := "pprof" }])
    (sampleRequest "GET" "/v1/token") rfl rfl).2⟩

/-- C4: on a fresh router, `registerHandler` builds, in order, the `/v1/token` entry
restricted to POST and PUT, the `/v1/healthz` entry restricted to GET, the
entries of the profiling installer, and the catch-all entry for the proxy
handler; the catch-all is the last entry and the only entry after the
profiling entries. -/
theorem registerHandler_table {C P Q : Type} (cfg : config.YurtHubConfiguration) (cm : C)
    (p : P) (w : World P Q) :
    ((NewYurtHubServer cfg cm p).registerHandler w).1.mux.routes =
      [ { handler := some Handler.updateToken,
          matchers := [mux.matcher.routeRegexp "/v1/token" false,
            mux.matcher.methodMatcher ["POST", "PUT"]] },
        { handler := some Handler.healthz,
          matchers := [mux.matcher.routeRegexp "/v1/healthz" false,
            mux.matcher.methodMatcher ["GET"]] } ]
      ++ w.profileEntries.map ProfileEntry.toRoute
      ++ [ { handler := some (Handler.proxyHandler p),
             matchers := [mux.matcher.routeRegexp "/" true] } ] ∧
    ((NewYurtHubServer cfg cm p).registerHandler w).1.mux.routes.getLast? =
      some { handler := some (Handler.proxyHandler p),
             matchers := [mux.matcher.routeRegexp "/" true] } ∧
    ((NewYurtHubServer cfg cm p).registerHandler w).1.mux.routes.drop
        (2 + w.profileEntries.length) =
      [ { handler := some (Handler.proxyHandler p),
          matchers := [mux.matcher.routeRegexp "/" true] } ] := by
  have h := registerHandler_routes (NewYurtHubServer cfg cm p) w
  simp only [NewYurtHubServer, mux.NewRouter, List.nil_append] at h
  simp only [NewYurtHubServer, mux.NewRouter]
  rw [h]
  refine ⟨by simp [expectedRoutes, tokenEntry, healthzEntry, catchAllEntry], ?_, ?_⟩
  · have he : expectedRoutes p w.profileEntries
        = ([tokenEntry, healthzEntry] ++ w.profileEntries.map ProfileEntry.toRoute)
            ++ [catchAllEntry p] := by
      simp [expectedRoutes]
    rw [he, List.getLast?_append]
    rfl
  · have hl : 2 + w.profileEntries.length
        = ([tokenEntry, healthzEntry] ++ w.profileEntries.map
            (ProfileEntry.toRoute : ProfileEntry Q → mux.Route (Handler P Q))).length := by
      simp only [List.length_append, List.length_cons, List.length_nil, List.length_map]
    have he : expectedRoutes p w.profileEntries
        = ([tokenEntry, healthzEntry] ++ w.profileEntries.map ProfileEntry.toRoute)
            ++ [catchAllEntry p] := by
      simp [expectedRoutes]
    rw [hl, he, List.drop_left]
    rfl

/-- C5: whatever the proxy handler and whatever entries the profiling installer
registers, dispatch over the table built by `registerHandler` hands a GET
request for `/v1/healthz` to the health responder and a POST or PUT request
for `/v1/token` to the token-update handler (the matched route is the control
entry itself, so neither the catch-all nor a profiling entry). -/
theorem control_endpoints_not_shadowed {C P Q : Type} (cfg : config.YurtHubConfiguration)
    (cm : C) (p : P) (w : World P Q) (req : http.Request) :
    (req.Method = "GET" → req.Path = "/v1/healthz" →
      (builtRouter cfg cm p w).Match req mux.RouteMatch.zero =
        (true, { Route := some healthzEntry, Handler := some Handler.healthz,
                 MatchErr := none })) ∧
    ((req.Method = "POST" ∨ req.Method = "PUT") → req.Path = "/v1/token" →
      (builtRouter cfg cm p w).Match req mux.RouteMatch.zero =
        (true, { Route := some tokenEntry, Handler := some Handler.updateToken,
                 MatchErr := none })) := by
  constructor
  · intro hm hp
    have e1 : (tokenEntry : mux.Route (Handler P Q)).accepts req = false := by
      rw [Bool.eq_false_iff, Ne, tokenEntry_accepts]
      simp [hp]
    have e2 : (healthzEntry : mux.Route (Handler P Q)).accepts req = true :=
      (healthzEntry_accepts req).mpr ⟨hp, hm⟩
    exact builtRouter_Match cfg cm p w req healthzEntry
      (by simp only [mux.firstMatch, expectedRoutes, List.find?, e1, e2])
  · intro hm hp
    have e1 : (tokenEntry : mux.Route (Handler P Q)).accepts req = true :=
      (tokenEntry_accepts req).mpr ⟨hp, hm⟩
    exact builtRouter_Match cfg cm p w req tokenEntry
      (by simp only [mux.firstMatch, expectedRoutes, List.find?, e1])

/-- C5, at concrete requests: `GET /v1/healthz`, `POST /v1/token` and
`PUT /v1/token`, with a profiling entry that would accept every request. -/
theorem control_endpoints_not_shadowed_witness :
    (builtRouter sampleCfg () "proxy"
        (sampleWorld (fun _ => (false, none))
          [{ matchers := [], handler := "pprof" }])).Match
        (sampleRequest "GET" "/v1/healthz") mux.RouteMatch.zero =
      (true, { Route := some healthzEntry, Handler := some Handler.healthz,
               MatchErr := none }) ∧
    (builtRouter sampleCfg () "proxy"
        (sampleWorld (fun _ => (false, none))
          [{ matchers := [], handler := "pprof" }])).Match
        (sampleRequest "POST" "/v1/token") mux.RouteMatch.zero =
      (true, { Route := some tokenEntry, Handler := some Handler.updateToken,
               MatchErr := none }) ∧
    (builtRouter sampleCfg () "proxy"
        (sampleWorld (fun _ => (false, none))
          [{ matchers := [], handler := "pprof" }])).Match
        (sampleRequest "PUT" "/v1/token") mux.RouteMatch.zero =
      (true, { Route := some tokenEntry, Handler := some Handler.updateToken,
               MatchErr := none }) :=
  ⟨(control_endpoints_not_shadowed sampleCfg () "proxy" _
      (sampleRequest "GET" "/v1/healthz")).1 rfl rfl,
   (control_endpoints_not_shadowed sampleCfg () "proxy" _
      (sampleRequest "POST" "/v1/token")).2 (Or.inl rfl) rfl,
   (control_endpoints_not_shadowed sampleCfg () "proxy" _
      (sampleRequest "PUT" "/v1/token")).2 (Or.inr rfl) rfl⟩

theorem cleanPathChars_rooted (l : List Char) : ∃ t, mux.cleanPathChars l = '/' :: t := by
  have hroot : ∀ q : List Char, q.head? = some '/' →
      path.CleanChars q = '/' :: path.join (path.cleanLoop true (path.elements q) [] 0) := by
    intro q hq
    simp [path.CleanChars, hq]
  have hput : ∀ (c : Prop) [Decidable c] (np t : List Char), np = '/' :: t →
      ∃ t2, (if c then np ++ ['/'] else np) = '/' :: t2 := by
    intro c _ np t hnp
    by_cases hc : c
    · exact ⟨t ++ ['/'], by simp [hc, hnp]⟩
    · exact ⟨t, by simp [hc, hnp]⟩
  unfold mux.cleanPathChars
  by_cases hl : l = []
  · exact ⟨[], by simp [hl]⟩
  · have hp1 : (if l.head? ≠ some '/' then '/' :: l else l).head? = some '/' := by
      by_cases hh : l.head? = some '/'
      · simp [hh]
      · simp [hh]
    rw [if_neg hl]
    exact hput _ _ _ (hroot _ hp1)

/-- A path that cleaning leaves unchanged starts with `/`. -/
theorem hasPrefix_of_clean (p : String) (h : mux.cleanPath p = p) :
    strings.HasPrefix p "/" = true := by
  obtain ⟨t, ht⟩ := cleanPathChars_rooted p.data
  have hd : p.data = '/' :: t := by
    have h2 := congrArg String.data h
    simp only [mux.cleanPath] at h2
    rw [← h2, ht]
  simp [strings.HasPrefix, hd]

/-- C6 (counterexample): the paths `/v1//token` and the empty path match no control
route and no profiling entry, yet neither request is delegated to the proxy
handler: the server answers with a redirect to the cleaned path and runs no
handler, and for the empty path the route table itself has no entry that
matches, the catch-all included. -/
theorem noncanonical_path_not_proxied :
    (sampleRequest "POST" "/v1//token").Path ≠ "/v1/token" ∧
    (sampleRequest "POST" "/v1//token").Path ≠ "/v1/healthz" ∧
    (∀ e ∈ (sampleWorld (fun _ => (false, none))
        [{ matchers := [mux.matcher.routeRegexp "/debug/pprof/" true],
           handler := "pprof" }]).profileEntries,
      e.matchers.all (fun x => x.Match (sampleRequest "POST" "/v1//token")) = false) ∧
    (builtRouter sampleCfg () "proxy"
        (sampleWorld (fun _ => (false, none))
          [{ matchers := [mux.matcher.routeRegexp "/debug/pprof/" true],
             handler := "pprof" }])).ServeHTTP (sampleRequest "POST" "/v1//token")
      = mux.Served.redirect "/v1/token" ∧
    (builtRouter sampleCfg () "proxy"
        (sampleWorld (fun _ => (false, none))
          [{ matchers := [mux.matcher.routeRegexp "/debug/pprof/" true],
             handler := "pprof" }])).ServeHTTP (sampleRequest "CONNECT" "")
      = mux.Served.redirect "/" ∧
    ((builtRouter sampleCfg () "proxy"
        (sampleWorld (fun _ => (false, none))
          [{ matchers := [mux.matcher.routeRegexp "/debug/pprof/" true],
             handler := "pprof" }])).Match (sampleRequest "CONNECT" "")
        mux.RouteMatch.zero).1 = false := by
  refine ⟨by decide, by decide, ?_, ?_, ?_, ?_⟩
  · intro e he
    simp only [sampleWorld, List.mem_singleton] at he
    subst he
    decide
  · have h : mux.cleanPath (sampleRequest "POST" "/v1//token").Path = "/v1/token" := by
      decide
    simp only [mux.Router.ServeHTTP, h]
    rfl
  · have h : mux.cleanPath (sampleRequest "CONNECT" "").Path = "/" := by decide
    simp only [mux.Router.ServeHTTP, h]
    rfl
  · rw [builtRouter_eq]
    rfl

/-- C6 (amended): for a request, with any method, whose path is neither `/v1/token`
nor `/v1/healthz`: if the path is in canonical form (cleaning leaves it
unchanged) and no profiling entry accepts the request, the server delegates
it to the injected proxy handler; if the path is not in canonical form, the
server answers with a redirect to the cleaned path and runs no handler; and
in no case is the request handed to the token or health handler, whatever the
profiling entries, since control routes match the whole path. -/
theorem canonical_unmatched_goes_to_proxy {C P Q : Type} (cfg : config.YurtHubConfiguration)
    (cm : C) (p : P) (w : World P Q) (req : http.Request)
    (htoken : req.Path ≠ "/v1/token") (hhealthz : req.Path ≠ "/v1/healthz") :
    (mux.cleanPath req.Path = req.Path →
      (∀ e ∈ w.profileEntries, e.matchers.all (fun x => x.Match req) = false) →
      (builtRouter cfg cm p w).ServeHTTP req = mux.Served.handler (Handler.proxyHandler p) ∧
      (builtRouter cfg cm p w).Match req mux.RouteMatch.zero =
        (true, { Route := some (catchAllEntry p), Handler := some (Handler.proxyHandler p),
                 MatchErr := none })) ∧
    (mux.cleanPath req.Path ≠ req.Path →
      (builtRouter cfg cm p w).ServeHTTP req = mux.Served.redirect (mux.cleanPath req.Path)) ∧
    (builtRouter cfg cm p w).ServeHTTP req ≠ mux.Served.handler Handler.updateToken ∧
    (builtRouter cfg cm p w).ServeHTTP req ≠ mux.Served.handler Handler.healthz := by
  have e1 : (tokenEntry : mux.Route (Handler P Q)).accepts req = false := by
    rw [Bool.eq_false_iff, Ne, tokenEntry_accepts]
    simp [htoken]
  have e2 : (healthzEntry : mux.Route (Handler P Q)).accepts req = false := by
    rw [Bool.eq_false_iff, Ne, healthzEntry_accepts]
    simp [hhealthz]
  have hfall : mux.cleanPath req.Path = req.Path →
      ((builtRouter cfg cm p w).ServeHTTP req = mux.Served.handler (Handler.proxyHandler p) ∨
        ∃ q, (builtRouter cfg cm p w).ServeHTTP req = mux.Served.handler (Handler.profile q)) := by
    intro hclean
    have e3 : (catchAllEntry p : mux.Route (Handler P Q)).accepts req = true := by
      rw [catchAllEntry_accepts]
      exact hasPrefix_of_clean req.Path hclean
    have h := builtRouter_Match_fallthrough cfg cm p w req e1 e2 e3
    rcases h.2 with hh | ⟨q, hh⟩
    · left
      rw [h.1] at hh
      simp only [mux.Router.ServeHTTP, hclean, h.1]
      simp only at hh
      simp [hh]
    · right
      refine ⟨q, ?_⟩
      rw [h.1] at hh
      simp only [mux.Router.ServeHTTP, hclean, h.1]
      simp only at hh
      simp [hh]
  have hredirect : mux.cleanPath req.Path ≠ req.Path →
      (builtRouter cfg cm p w).ServeHTTP req = mux.Served.redirect (mux.cleanPath req.Path) := by
    intro hne
    simp [mux.Router.ServeHTTP, hne]
  refine ⟨?_, hredirect, ?_, ?_⟩
  · intro hclean hprofile
    have e3 : (catchAllEntry p : mux.Route (Handler P Q)).accepts req = true := by
      rw [catchAllEntry_accepts]
      exact hasPrefix_of_clean req.Path hclean
    have h := builtRouter_Match_fallthrough cfg cm p w req e1 e2 e3
    have e4 : ∀ r ∈ w.profileEntries.map
        (ProfileEntry.toRoute : ProfileEntry Q → mux.Route (Handler P Q)),
        r.accepts req = false := by
      intro r hr
      obtain ⟨e, he, rfl⟩ := List.mem_map.mp hr
      exact hprofile e he
    have hnone : mux.firstMatch (w.profileEntries.map
        (ProfileEntry.toRoute : ProfileEntry Q → mux.Route (Handler P Q))) req = none := by
      have h1 := firstMatch_append_none (w.profileEntries.map ProfileEntry.toRoute)
        ([] : List (mux.Route (Handler P Q))) req e4
      simpa [mux.firstMatch] using h1
    have hm : (builtRouter cfg cm p w).Match req mux.RouteMatch.zero =
        (true, { Route := some (catchAllEntry p), Handler := some (Handler.proxyHandler p),
                 MatchErr := none }) := by
      rw [h.1, hnone]
      rfl
    refine ⟨?_, hm⟩
    simp [mux.Router.ServeHTTP, hclean, hm]
  · by_cases hclean : mux.cleanPath req.Path = req.Path
    · rcases hfall hclean with h | ⟨q, h⟩ <;> rw [h] <;> simp
    · rw [hredirect hclean]
      simp
  · by_cases hclean : mux.cleanPath req.Path = req.Path
    · rcases hfall hclean with h | ⟨q, h⟩ <;> rw [h] <;> simp
    · rw [hredirect hclean]
      simp

/-- C6 (amended), at the paths `/v1/tokens`, `/v1/token/x`, `/v1/healthzz` and `/v1`,
with the methods that the control routes allow and a profiling entry for the
subtree `/debug/pprof/`: each is delegated to the proxy handler. -/
theorem canonical_unmatched_goes_to_proxy_witness :
    (builtRouter sampleCfg () "proxy"
        (sampleWorld (fun _ => (false, none))
          [{ matchers := [mux.matcher.routeRegexp "/debug/pprof/" true],
             handler := "pprof" }])).ServeHTTP (sampleRequest "POST" "/v1/tokens")
      = mux.Served.handler (Handler.proxyHandler "proxy") ∧
    (builtRouter sampleCfg () "proxy"
        (sampleWorld (fun _ => (false, none))
          [{ matchers := [mux.matcher.routeRegexp "/debug/pprof/" true],
             handler := "pprof" }])).ServeHTTP (sampleRequest "PUT" "/v1/token/x")
      = mux.Served.handler (Handler.proxyHandler "proxy") ∧
    (builtRouter sampleCfg () "proxy"
        (sampleWorld (fun _ => (false, none))
          [{ matchers := [mux.matcher.routeRegexp "/debug/pprof/" true],
             handler := "pprof" }])).ServeHTTP (sampleRequest "GET" "/v1/healthzz")
      = mux.Served.handler (Handler.proxyHandler "proxy") ∧
    (builtRouter sampleCfg () "proxy"
        (sampleWorld (fun _ => (false, none))
          [{ matchers := [mux.matcher.routeRegexp "/debug/pprof/" true],
             handler := "pprof" }])).ServeHTTP (sampleRequest "GET" "/v1")
      = mux.Served.handler (Handler.proxyHandler "proxy") ∧
    (builtRouter sampleCfg () "proxy"
        (sampleWorld (fun _ => (false, none))
          [{ matchers := [mux.matcher.routeRegexp "/debug/pprof/" true],
             handler := "pprof" }])).ServeHTTP (sampleRequest "GET" "/v1/../v1/tokens")
      = mux.Served.redirect "/v1/tokens" :=
  ⟨((canonical_unmatched_goes_to_proxy sampleCfg () "proxy" _
      (sampleRequest "POST" "/v1/tokens") (by decide) (by decide)).1 (by decide)
      (by intro e he; simp only [sampleWorld, List.mem_singleton] at he; subst he; decide)).1,
   ((canonical_unmatched_goes_to_proxy sampleCfg () "proxy" _
      (sampleRequest "PUT" "/v1/token/x") (by decide) (by decide)).1 (by decide)
      (by intro e he; simp only [sampleWorld, List.mem_singleton] at he; subst he; decide)).1,
   ((canonical_unmatched_goes_to_proxy sampleCfg () "proxy" _
      (sampleRequest "GET" "/v1/healthzz") (by decide) (by decide)).1 (by decide)
      (by intro e he; simp only [sampleWorld, List.mem_singleton] at he; subst he; decide)).1,
   ((canonical_unmatched_goes_to_proxy sampleCfg () "proxy" _
      (sampleRequest "GET" "/v1") (by decide) (by decide)).1 (by decide)
      (by intro e he; simp only [sampleWorld, List.mem_singleton] at he; subst he; decide)).1,
   (canonical_unmatched_goes_to_proxy sampleCfg () "proxy" _
      (sampleRequest "GET" "/v1/../v1/tokens") (by decide) (by decide)).2.1 (by decide)⟩

theorem World.call_FileExists {P Q : Type} (w : World P Q) (c : Call (Handler P Q)) :
    (w.call c).FileExists = w.FileExists := rfl

theorem World.call_trace {P Q : Type} (w : World P Q) (c : Call (Handler P Q)) :
    (w.call c).trace = w.trace ++ [c] := rfl

theorem World.call_ListenAndServe {P Q : Type} (w : World P Q)
    (c : Call (Handler P Q)) : (w.call c).ListenAndServe = w.ListenAndServe := rfl

theorem World.call_ListenAndServeTLS {P Q : Type} (w : World P Q)
    (c : Call (Handler P Q)) : (w.call c).ListenAndServeTLS = w.ListenAndServeTLS := rfl

/-- The verdict of `isServeTLS` as a function of the two probe answers. -/
theorem isServeTLS_verdict {C P Q : Type} (s : yurtHubServer C P Q) (w : World P Q) :
    (s.isServeTLS w).1 =
      ((w.FileExists s.cfg.ServerTLSCert).2.isNone && (w.FileExists s.cfg.ServerTLSKey).2.isNone
        && (w.FileExists s.cfg.ServerTLSCert).1 && (w.FileExists s.cfg.ServerTLSKey).1) := by
  unfold yurtHubServer.isServeTLS
  rcases h1 : w.FileExists s.cfg.ServerTLSCert with ⟨c, _ | e1⟩ <;>
  rcases h2 : w.FileExists s.cfg.ServerTLSKey with ⟨k, _ | e2⟩ <;>
  cases c <;> cases k <;> simp [h2, World.call_FileExists, World.call_trace]

/-- The calls of `isServeTLS` as a function of the two probe answers. -/
theorem isServeTLS_trace {C P Q : Type} (s : yurtHubServer C P Q) (w : World P Q) :
    (s.isServeTLS w).2.trace = w.trace ++
      (match (w.FileExists s.cfg.ServerTLSCert).2 with
       | some e =>
         [Call.FileExists s.cfg.ServerTLSCert, Call.Infof ("fail to init tls cert file, " ++ e)]
       | none =>
         match (w.FileExists s.cfg.ServerTLSKey).2 with
         | some e =>
           [Call.FileExists s.cfg.ServerTLSCert, Call.FileExists s.cfg.ServerTLSKey,
            Call.Infof ("fail to init tls key file, " ++ e)]
         | none =>
           if (w.FileExists s.cfg.ServerTLSCert).1 && (w.FileExists s.cfg.ServerTLSKey).1 then
             [Call.FileExists s.cfg.ServerTLSCert, Call.FileExists s.cfg.ServerTLSKey,
              Call.Infof ("use " ++ s.cfg.ServerTLSCert ++ " cert file and "
                ++ s.cfg.ServerTLSKey ++ " key file to run server.")]
           else
             [Call.FileExists s.cfg.ServerTLSCert, Call.FileExists s.cfg.ServerTLSKey]) := by
  unfold yurtHubServer.isServeTLS
  rcases h1 : w.FileExists s.cfg.ServerTLSCert with ⟨c, _ | e1⟩ <;>
  rcases h2 : w.FileExists s.cfg.ServerTLSKey with ⟨k, _ | e2⟩ <;>
  cases c <;> cases k <;> simp [h2, World.call_FileExists, World.call_trace]

theorem isServeTLS_world {C P Q : Type} (s : yurtHubServer C P Q) (w : World P Q) :
    (s.isServeTLS w).2 = { w with trace := (s.isServeTLS w).2.trace } := by
  unfold yurtHubServer.isServeTLS
  rcases h1 : w.FileExists s.cfg.ServerTLSCert with ⟨c, _ | e1⟩ <;>
  rcases h2 : w.FileExists s.cfg.ServerTLSKey with ⟨k, _ | e2⟩ <;>
  cases c <;> cases k <;> simp [h2, World.call]

theorem isServeTLS_frame {C P Q : Type} (s : yurtHubServer C P Q) (w : World P Q) :
    (s.isServeTLS w).2.trace = w.trace ++ probeCalls s w := by
  rw [probeCalls, isServeTLS_trace, isServeTLS_trace]
  simp

theorem probeCalls_not_serve {C P Q : Type} (s : yurtHubServer C P Q) (w : World P Q) :
    (probeCalls s w).filter Call.isServe = [] := by
  rw [probeCalls, isServeTLS_trace]
  rcases h1 : w.FileExists s.cfg.ServerTLSCert with ⟨c, _ | e1⟩ <;>
  rcases h2 : w.FileExists s.cfg.ServerTLSKey with ⟨k, _ | e2⟩ <;>
  cases c <;> cases k <;> simp [h1, h2, Call.isServe]

theorem registerHandler_world {C P Q : Type} (s : yurtHubServer C P Q) (w : World P Q) :
    (s.registerHandler w).2 = { w with trace := w.trace ++ registerCalls } := by
  simp [yurtHubServer.registerHandler, mux.HandleFunc_eq, mux.PathPrefix_eq, World.call,
    registerCalls]

theorem registerHandler_cfg {C P Q : Type} (s : yurtHubServer C P Q) (w : World P Q) :
    (s.registerHandler w).1.cfg = s.cfg := by
  simp [yurtHubServer.registerHandler, mux.HandleFunc_eq, mux.PathPrefix_eq]

theorem isServeTLS_congr {C P Q : Type} (s1 s2 : yurtHubServer C P Q) (w1 w2 : World P Q)
    (hc : s1.cfg = s2.cfg) (hf : w1.FileExists = w2.FileExists) :
    (s1.isServeTLS w1).1 = (s2.isServeTLS w2).1 ∧ probeCalls s1 w1 = probeCalls s2 w2 := by
  constructor
  · rw [isServeTLS_verdict, isServeTLS_verdict, hc, hf]
  · rw [probeCalls, probeCalls, isServeTLS_trace, isServeTLS_trace, hc]
    simp only [hf]

/-- `Run` unfolded: the result follows the chosen serve call, the server is the
one `registerHandler` leaves, and the trace grows by the registration calls,
the calls of one `isServeTLS`, and the chosen serve call. -/
theorem Run_eq {C P Q : Type} (s : yurtHubServer C P Q) (w : World P Q) :
    s.Run w =
      ((match chosenServeResult s w with
        | .blocks => RunResult.serving
        | .returns (some e) => RunResult.panicked e
        | .returns none => RunResult.returned),
       (s.registerHandler w).1,
       { w with trace := w.trace ++ registerCalls ++ probeCalls s w ++ [chosenServeCall s w] }) := by
  have hv := (isServeTLS_congr (s.registerHandler w).1 s (s.registerHandler w).2 w
    (registerHandler_cfg s w) (by rw [registerHandler_world])).1
  have hp := (isServeTLS_congr (s.registerHandler w).1 s (s.registerHandler w).2 w
    (registerHandler_cfg s w) (by rw [registerHandler_world])).2
  have ht := isServeTLS_frame (s.registerHandler w).1 (s.registerHandler w).2
  have hw := isServeTLS_world (s.registerHandler w).1 (s.registerHandler w).2
  rw [hp] at ht
  rw [ht] at hw
  have hw1 := registerHandler_world s w
  have hc := registerHandler_cfg s w
  unfold yurtHubServer.Run
  rcases hr : s.registerHandler w with ⟨s1, w1⟩
  rw [hr] at hv hp ht hw hw1 hc
  simp only at hv hp ht hw hw1 hc
  rcases hi : s1.isServeTLS w1 with ⟨tls, w2⟩
  rw [hi] at hv hw
  simp only at hv hw
  subst hw1
  subst hw
  simp only [chosenServeResult, chosenServeCall, builtServer, hr, hi, ← hv, hc, World.call]
  cases tls <;> simp <;> split <;> rfl

/-- C2: `isServeTLS` returns true exactly when the probe of the cert path and the
probe of the key path both answer "exists" with no error; it returns false
exactly when one of the two probes answers with an error or with "absent", so
an access error has the same effect as a missing file. -/
theorem isServeTLS_true_iff {C P Q : Type} (s : yurtHubServer C P Q) (w : World P Q) :
    ((s.isServeTLS w).1 = true ↔
      (w.FileExists s.cfg.ServerTLSCert = (true, none) ∧
        w.FileExists s.cfg.ServerTLSKey = (true, none))) ∧
    ((s.isServeTLS w).1 = false ↔
      ((w.FileExists s.cfg.ServerTLSCert).2.isSome = true ∨
        (w.FileExists s.cfg.ServerTLSKey).2.isSome = true ∨
        (w.FileExists s.cfg.ServerTLSCert).1 = false ∨
        (w.FileExists s.cfg.ServerTLSKey).1 = false)) := by
  rw [isServeTLS_verdict]
  rcases w.FileExists s.cfg.ServerTLSCert with ⟨c, _ | e1⟩ <;>
  rcases w.FileExists s.cfg.ServerTLSKey with ⟨k, _ | e2⟩ <;>
  cases c <;> cases k <;> simp

/-- C3: on a response nothing has been written to, `healthz` sends status 200 and
the body `OK`, for every server (any configuration, proxy handler and
certificate manager) and every request; and what it writes is the same for
any two servers and any two requests. -/
theorem healthz_always_ok {C P Q C2 P2 Q2 : Type} (s : yurtHubServer C P Q)
    (r : http.Request) (s2 : yurtHubServer C2 P2 Q2) (r2 : http.Request)
    (out : http.ResponseWriter) :
    s.healthz http.ResponseWriter.fresh r = { wroteHeader := true, status := 200, body := "OK" } ∧
    s.healthz out r = s2.healthz out r2 := by
  constructor
  · simp [yurtHubServer.healthz, fmt.Fprintf, http.ResponseWriter.Write,
      http.ResponseWriter.WriteHeader, http.ResponseWriter.fresh, http.StatusOK]
  · rfl

/-- C7: `Run` adds to the trace, in this order, the calls of `registerHandler`, the
calls of one invocation of `isServeTLS`, and one serve call: the TLS serve
with the configured cert and key paths when the verdict is true, the
plaintext serve when it is false.  The server passed to the serve call carries
the finished route table.  No other serve call is made, whatever the serve
call returns. -/
theorem Run_probes_once_serves_once {C P Q : Type} (s : yurtHubServer C P Q) (w : World P Q) :
    (s.Run w).2.2.trace =
      w.trace ++ registerCalls ++ probeCalls s w ++
        [if (s.isServeTLS w).1 then
           Call.ListenAndServeTLS
             { Addr := fmt.SprintfHostPort s.cfg.YurtHubHost s.cfg.YurtHubPort,
               Handler := (s.registerHandler w).1.mux }
             s.cfg.ServerTLSCert s.cfg.ServerTLSKey
         else
           Call.ListenAndServe
             { Addr := fmt.SprintfHostPort s.cfg.YurtHubHost s.cfg.YurtHubPort,
               Handler := (s.registerHandler w).1.mux }] ∧
    (registerCalls ++ probeCalls s w).filter Call.isServe = [] ∧
    ((probeCalls s w).filter Call.isFileExists = [Call.FileExists s.cfg.ServerTLSCert] ∨
      (probeCalls s w).filter Call.isFileExists =
        [Call.FileExists s.cfg.ServerTLSCert, Call.FileExists s.cfg.ServerTLSKey]) ∧
    (s.registerHandler w).1.mux.routes =
      s.mux.routes ++ expectedRoutes s.proxyHandler w.profileEntries := by
  refine ⟨?_, ?_, ?_, registerHandler_routes s w⟩
  · rw [Run_eq]
    rfl
  · rw [List.filter_append, probeCalls_not_serve]
    rfl
  · rw [probeCalls, isServeTLS_trace]
    rcases h1 : w.FileExists s.cfg.ServerTLSCert with ⟨c, _ | e1⟩ <;>
    rcases h2 : w.FileExists s.cfg.ServerTLSKey with ⟨k, _ | e2⟩ <;>
    cases c <;> cases k <;> simp [h1, h2, Call.isFileExists]

/-- C8: if the chosen serve call returns an error, `Run` panics with that error;
`Run` returns normally exactly when the serve call returned nil; and in every
case the trace of `Run` holds exactly one serve call more than before, so
neither the bind nor the serve call is retried. -/
theorem Run_fail_fast {C P Q : Type} (s : yurtHubServer C P Q) (w : World P Q) :
    (∀ e, chosenServeResult s w = ServeResult.returns (some e) →
      (s.Run w).1 = RunResult.panicked e) ∧
    ((s.Run w).1 = RunResult.returned ↔ chosenServeResult s w = ServeResult.returns none) ∧
    ((s.Run w).2.2.trace.filter Call.isServe).length
      = (w.trace.filter Call.isServe).length + 1 := by
  rw [Run_eq]
  refine ⟨?_, ?_, ?_⟩
  · intro e he
    simp only [he]
  · rcases chosenServeResult s w with _ | _ | e <;> simp
  · have h1 : (registerCalls : List (Call (Handler P Q))).filter Call.isServe = [] := rfl
    have h2 : [chosenServeCall s w].filter Call.isServe = [chosenServeCall s w] := by
      unfold chosenServeCall
      split <;> rfl
    simp only [List.filter_append, probeCalls_not_serve, h1, h2, List.length_append,
      List.append_nil, List.length_singleton]

/-- C8, in a world where no cert or key file exists and the plaintext serve call
fails to bind: `Run` panics with the bind error. -/
theorem Run_fail_fast_witness :
    chosenServeResult (NewYurtHubServer sampleCfg () "proxy")
        { sampleWorld (fun _ => (false, none)) [] with
          ListenAndServe := fun _ => .returns (some "bind: address already in use") }
      = ServeResult.returns (some "bind: address already in use") ∧
    ((NewYurtHubServer sampleCfg () "proxy").Run
        { sampleWorld (fun _ => (false, none)) [] with
          ListenAndServe := fun _ => .returns (some "bind: address already in use") }).1
      = RunResult.panicked "bind: address already in use" :=
  ⟨rfl, (Run_fail_fast (NewYurtHubServer sampleCfg () "proxy")
      { sampleWorld (fun _ => (false, none)) [] with
        ListenAndServe := fun _ => .returns (some "bind: address already in use") }).1
      "bind: address already in use" rfl⟩

/-- C10 (counterexample): when the probe of the cert path and the probe of the key
path would both fail with an access error, `isServeTLS` makes only the cert
probe and reports only one diagnostic, the one for the cert path; none is
reported for the key path. -/
theorem both_probes_fail_one_diagnostic :
    ((sampleWorld (fun _ => (false, some "permission denied")) []).FileExists
        sampleCfg.ServerTLSCert).2 = some "permission denied" ∧
    ((sampleWorld (fun _ => (false, some "permission denied")) []).FileExists
        sampleCfg.ServerTLSKey).2 = some "permission denied" ∧
    ((NewYurtHubServer sampleCfg () "proxy").isServeTLS
        (sampleWorld (fun _ => (false, some "permission denied")) [])).2.trace =
      [Call.FileExists "/var/lib/yurthub/pki/server.crt",
       Call.Infof "fail to init tls cert file, permission denied"] ∧
    ((((NewYurtHubServer sampleCfg () "proxy").isServeTLS
        (sampleWorld (fun _ => (false, some "permission denied")) [])).2.trace).filter
          Call.isInfof).length = 1 := by
  refine ⟨rfl, rfl, ?_, ?_⟩
  · rw [isServeTLS_trace]
    rfl
  · rw [isServeTLS_trace]
    rfl

/-- C10 (amended): `isServeTLS` always returns a boolean, false on any access error,
and reports at most one failure diagnostic.  It probes the cert path first; if
that probe fails it reports the cert diagnostic and returns false without
probing the key path.  Otherwise it probes the key path; if that probe fails
it reports the key diagnostic and returns false.  With no access error it
reports no failure diagnostic (only the line that announces TLS when both
files exist). -/
theorem isServeTLS_diagnostics {C P Q : Type} (s : yurtHubServer C P Q) (w : World P Q) :
    (s.isServeTLS w).1 =
      ((w.FileExists s.cfg.ServerTLSCert).2.isNone && (w.FileExists s.cfg.ServerTLSKey).2.isNone
        && (w.FileExists s.cfg.ServerTLSCert).1 && (w.FileExists s.cfg.ServerTLSKey).1) ∧
    (s.isServeTLS w).2.trace = w.trace ++
      (match (w.FileExists s.cfg.ServerTLSCert).2 with
       | some e =>
         [Call.FileExists s.cfg.ServerTLSCert, Call.Infof ("fail to init tls cert file, " ++ e)]
       | none =>
         match (w.FileExists s.cfg.ServerTLSKey).2 with
         | some e =>
           [Call.FileExists s.cfg.ServerTLSCert, Call.FileExists s.cfg.ServerTLSKey,
            Call.Infof ("fail to init tls key file, " ++ e)]
         | none =>
           if (w.FileExists s.cfg.ServerTLSCert).1 && (w.FileExists s.cfg.ServerTLSKey).1 then
             [Call.FileExists s.cfg.ServerTLSCert, Call.FileExists s.cfg.ServerTLSKey,
              Call.Infof ("use " ++ s.cfg.ServerTLSCert ++ " cert file and "
                ++ s.cfg.ServerTLSKey ++ " key file to run server.")]
           else
             [Call.FileExists s.cfg.ServerTLSCert, Call.FileExists s.cfg.ServerTLSKey]) :=
  ⟨isServeTLS_verdict s w, isServeTLS_trace s w⟩

end server
